import Mathlib

/-!
Shallow embedding of `probe-rs/src/architecture/arm/communication_interface.rs`
(the ARM debug communication layer: port addressing, selection cache,
power-up handshake, ROM-table chip identification, display, handle reclaim),
together with theorems settling the specification claims about it.
-/

set_option autoImplicit false

namespace ArmComm



/-- `DapError` from the source (communication_interface.rs, lines 19-31). -/
inductive DapError where
  | SwdProtocol
  | NoAcknowledge
  | FaultResponse
  | WaitResponse
  | TargetPowerUpFailed
deriving DecidableEq, Repr

/-- The variants of `DebugProbeError` exercised by this file: the
`InterfaceNotAvailable("ARM")` error raised when the probe exposes no DAP
interface, and `ArchitectureSpecific` wrapping a `DapError`
(the `From<DapError> for DebugProbeError` impl, lines 33-37). -/
inductive DebugProbeError where
  | InterfaceNotAvailable (name : String)
  | ArchitectureSpecific (e : DapError)
deriving DecidableEq, Repr

/-- `PortType` (lines 39-43): the Debug Port, or an Access Port by number. -/
inductive PortType where
  | DebugPort
  | AccessPort (n : Nat)
deriving DecidableEq, Repr

/-- `impl From<u16> for PortType` (lines 45-53): 0xFFFF decodes to the Debug
Port, every other u16 value to the Access Port of that number. -/
def portTypeFromU16 (value : Nat) : PortType :=
  if value = 0xFFFF then PortType.DebugPort else PortType.AccessPort value

/-- `impl From<PortType> for u16` (lines 55-62). -/
def u16FromPortType : PortType → Nat
  | PortType.DebugPort => 0xFFFF
  | PortType.AccessPort v => v

/-- The mutable fields of `InnerArmCommunicationInterface` (lines 143-148)
that make up the selection cache: `current_apsel` and `current_apbanksel`. -/
structure Inner where
  current_apsel : Nat
  current_apbanksel : Nat
deriving DecidableEq, Repr

/-- One operation delivered to the hardware over the wire by the AP access
path: either a write of the SELECT register (carrying the AP number and AP
bank it encodes), or the data read/write/block at the selected Access Port. -/
inductive WireOp where
  | selectWrite (apsel apbank : Nat)
  | apData (apsel addr : Nat)
deriving DecidableEq, Repr

/-- Outcome of `select_ap_and_ap_bank`: the Rust return value, the inner
state after the call, and the wire operations actually delivered to the
hardware (empty when the write errors or no write was needed). -/
structure SelectOutcome where
  result : Except DebugProbeError Unit
  state : Inner
  trace : List WireOp
deriving Repr

/-- `InnerArmCommunicationInterface::select_ap_and_ap_bank` (lines 210-248).
The transport is summarized by `dapAvailable` (whether
`get_interface_dap_mut` returns `Some`) and `writeResult` (what
`interface.write_register` would return for the SELECT write). The cache
fields are updated before the write is attempted, exactly as in the source. -/
def select_ap_and_ap_bank (s : Inner) (port ap_bank : Nat) (dapAvailable : Bool)
    (writeResult : Except DebugProbeError Unit) : SelectOutcome :=
  let p1 : Inner × Bool :=
    if s.current_apsel ≠ port then ({ s with current_apsel := port }, true)
    else (s, false)
  let p2 : Inner × Bool :=
    if p1.1.current_apbanksel ≠ ap_bank then
      ({ p1.1 with current_apbanksel := ap_bank }, true)
    else (p1.1, p1.2)
  let s' := p2.1
  if p2.2 then
    if dapAvailable then
      match writeResult with
      | Except.ok _ =>
        ⟨Except.ok (), s', [WireOp.selectWrite s'.current_apsel s'.current_apbanksel]⟩
      | Except.error e => ⟨Except.error e, s', []⟩
    else ⟨Except.error (DebugProbeError.InterfaceNotAvailable "ARM"), s', []⟩
  else ⟨Except.ok (), s', []⟩

/-- The four kinds of Access Port register access (single/block,
read/write), each carrying the AP number, the AP bank the register declares
(`R::APBANKSEL`), and the register's address (`R::ADDRESS`). -/
inductive ApRequest where
  | readReg (port ap_bank addr : Nat)
  | writeReg (port ap_bank addr : Nat)
  | readBlock (port ap_bank addr n : Nat)
  | writeBlock (port ap_bank addr n : Nat)
deriving DecidableEq, Repr

/-- The (AP number, AP bank) pair an access targets. -/
def ApRequest.target : ApRequest → Nat × Nat
  | ApRequest.readReg p b _ => (p, b)
  | ApRequest.writeReg p b _ => (p, b)
  | ApRequest.readBlock p b _ _ => (p, b)
  | ApRequest.writeBlock p b _ _ => (p, b)

/-- The register address of an access. -/
def ApRequest.addr : ApRequest → Nat
  | ApRequest.readReg _ _ a => a
  | ApRequest.writeReg _ _ a => a
  | ApRequest.readBlock _ _ a _ => a
  | ApRequest.writeBlock _ _ a _ => a

/-- One AP register access on the success path (transport available, every
wire operation succeeds): `read_ap_register` / `write_ap_register` /
`read_ap_register_repeated` / `write_ap_register_repeated`
(lines 250-363) all first call `select_ap_and_ap_bank` with the request's
(AP number, AP bank), then issue the data operation at
`PortType::AccessPort(current_apsel)` and the register's address. -/
def apAccessOk (s : Inner) (r : ApRequest) : Inner × List WireOp :=
  let o := select_ap_and_ap_bank s r.target.1 r.target.2 true (Except.ok ())
  (o.state, o.trace ++ [WireOp.apData o.state.current_apsel r.addr])

/-- Run a sequence of AP register accesses on the success path, threading
the selection cache and concatenating the wire traces. -/
def runAccessesOk (s : Inner) : List ApRequest → Inner × List WireOp
  | [] => (s, [])
  | r :: rest =>
    let first := apAccessOk s r
    let more := runAccessesOk first.1 rest
    (more.1, first.2 ++ more.2)

/-- Whether a wire operation is a SELECT register write. -/
def WireOp.isSelect : WireOp → Bool
  | WireOp.selectWrite _ _ => true
  | WireOp.apData _ _ => false

/-- Number of SELECT register writes in a wire trace. -/
def selCount (t : List WireOp) : Nat := (t.filter WireOp.isSelect).length

/-- Modelled from the spec: the Debug Port register operations issued during
the power-up handshake. The `dp` module (the `DPIDR`, `Abort`, `Select` and
`Ctrl` register types with their bitfield setters) is not part of this
source tree, so each wire operation is recorded abstractly with the fields
the handshake sets: the four sticky-flag clear bits of the abort register,
the DP bank chosen by the selection register, and the two power-up request
bits of the control register. -/
inductive DpOp where
  | readDpIdr
  | writeAbort (orunerrclr wderrclr stkerrclr stkcmpclr : Bool)
  | writeSelectDp (dp_bank_sel : Nat)
  | writeCtrl (csyspwrupreq cdbgpwrupreq : Bool)
  | readCtrl
deriving DecidableEq, Repr

/-- Modelled from the spec: the two acknowledge bits of the control
register read-back (`csyspwrupack`, `cdbgpwrupack`); the `Ctrl` register
type lives in the missing `dp` module. -/
structure CtrlVal where
  csyspwrupack : Bool
  cdbgpwrupack : Bool
deriving DecidableEq, Repr

/-- `InnerArmCommunicationInterface::enter_debug_mode` (lines 169-208), on
the path where every wire operation succeeds, parameterized by the value
the DPIDR read returns and by the control-register read-back. Returns the
Rust result and the ordered list of DP operations issued. -/
def enter_debug_mode (dpidr : Nat) (ctrlReadback : CtrlVal) :
    Except DebugProbeError Unit × List DpOp :=
  let _dp_id := dpidr
  let t1 := [DpOp.readDpIdr]
  let t2 := t1 ++ [DpOp.writeAbort true true true true]
  let t3 := t2 ++ [DpOp.writeSelectDp 0]
  let t4 := t3 ++ [DpOp.writeCtrl true true]
  let t5 := t4 ++ [DpOp.readCtrl]
  if !(ctrlReadback.csyspwrupack && ctrlReadback.cdbgpwrupack) then
    (Except.error (DebugProbeError.ArchitectureSpecific DapError.TargetPowerUpFailed), t5)
  else
    (Except.ok (), t5)

/-- `InnerArmCommunicationInterface::new` (lines 150-167): fails with
`InterfaceNotAvailable("ARM")` before any DP operation when the probe has
no DAP interface; otherwise initializes the cache to AP 0, bank 0 and runs
`enter_debug_mode` exactly once. -/
def innerNew (dapAvailable : Bool) (dpidr : Nat) (ctrlReadback : CtrlVal) :
    Except DebugProbeError Inner × List DpOp :=
  if !dapAvailable then
    (Except.error (DebugProbeError.InterfaceNotAvailable "ARM"), [])
  else
    match enter_debug_mode dpidr ctrlReadback with
    | (Except.ok _, t) => (Except.ok ⟨0, 0⟩, t)
    | (Except.error e, t) => (Except.error e, t)

/-- `JEP106Code` from the external `jep106` crate: a continuation-code and
identity-code pair identifying a manufacturer. -/
structure JEP106Code where
  cc : Nat
  id : Nat
deriving DecidableEq, Repr

/-- `ArmChipInfo` (lines 487-491). -/
structure ArmChipInfo where
  manufacturer : JEP106Code
  part : Nat
deriving DecidableEq, Repr

/-- `BaseaddrFormat` from the `ap` module, which is not part of this source
tree. Modelled from the spec: the base register's format field either
indicates the extended (ADIv5) addressing scheme or the legacy scheme. -/
inductive BaseaddrFormat where
  | Legacy
  | ADIv5
deriving DecidableEq, Repr

/-- The fields of the `BASE` register used by the scan. Modelled from the
spec: `BASEADDR` is the 20-bit low base field and `Format` the
addressing-scheme flag; the `BASE` register type lives in the missing `ap`
module. -/
structure BaseVal where
  Format : BaseaddrFormat
  BASEADDR : Nat
deriving DecidableEq, Repr

/-- The decoded component root as matched by `read_from_rom_table`
(lines 528-547): a class-1 ROM table whose peripheral ID may carry a
JEP106 code, or any other component shape (the `_` arm of the match). The
`CSComponent` type itself lives in the missing `romtable` module. -/
inductive CSComponentModel where
  | class1RomTable (jep106 : Option JEP106Code) (part : Nat)
  | other
deriving DecidableEq, Repr

/-- A ROM-table decode failure from `CSComponent::try_parse`, wrapped by
`ProbeRsError::architecture_specific`; kept abstract as a numbered error. -/
structure RomTableError where
  code : Nat
deriving DecidableEq, Repr

/-- The variants of `probe_rs::Error` that `read_from_rom_table` produces:
`Probe` wrapping a probe error, and the architecture-specific wrapper
around a decode failure. -/
inductive ProbeRsError where
  | Probe (e : DebugProbeError)
  | ArchitectureSpecific (e : RomTableError)
deriving DecidableEq, Repr

/-- One Access Port as seen by the chip-identification scan: the port
number together with the outcome each wire interaction would have. `idr`
is the result of reading the IDR register, `Except.ok true` meaning the
CLASS field equals `APClass::MEMAP`; `base` and `base2` are the results of
reading the BASE and BASE2 registers; `parse` is the outcome of handing
the memory view to `CSComponent::try_parse`. -/
structure ApEntry where
  port : Nat
  idr : Except DebugProbeError Bool
  base : Except DebugProbeError BaseVal
  base2 : Except DebugProbeError Nat
  parse : Except RomTableError CSComponentModel

/-- The register reads and decode attempts performed by
`read_from_rom_table`, tagged with the port they touch. -/
inductive RomEvent where
  | readIdr (port : Nat)
  | readBase (port : Nat)
  | readBase2 (port : Nat)
  | parseAt (port : Nat) (baseaddr : Nat)
deriving DecidableEq, Repr

/-- The base-address computation of `read_from_rom_table` (lines 510-518):
when the format field is ADIv5 the high-half register value is shifted
left 32 bits in u64 arithmetic; the low base field is shifted left 12 bits
in u32 arithmetic (in the source the shift happens before the conversion
to u64) and or-ed in. -/
def compute_baseaddr (fmt : BaseaddrFormat) (low high : Nat) : Nat :=
  let hi := if fmt = BaseaddrFormat.ADIv5 then (high % 2 ^ 32) * 2 ^ 32 else 0
  Nat.lor hi ((low * 2 ^ 12) % 2 ^ 32)

/-- The body of the `for access_port in valid_access_ports` loop of
`ArmChipInfo::read_from_rom_table` (lines 497-548) for one port:
`Except.ok none` plays the role of `continue`, `Except.ok (some info)` the
role of the early `return`, and `Except.error` the `?` propagation. The
second component is the trace of register reads and decode attempts. -/
def inspectEntry (e : ApEntry) :
    Except ProbeRsError (Option ArmChipInfo) × List RomEvent :=
  match e.idr with
  | Except.error er =>
    (Except.error (ProbeRsError.Probe er), [RomEvent.readIdr e.port])
  | Except.ok isMemAp =>
    if isMemAp then
      match e.base with
      | Except.error er =>
        (Except.error (ProbeRsError.Probe er),
         [RomEvent.readIdr e.port, RomEvent.readBase e.port])
      | Except.ok breg =>
        match (if breg.Format = BaseaddrFormat.ADIv5 then
                 (match e.base2 with
                  | Except.error er =>
                    ((Except.error er : Except DebugProbeError Nat),
                     [RomEvent.readBase2 e.port])
                  | Except.ok b2 => (Except.ok b2, [RomEvent.readBase2 e.port]))
               else ((Except.ok 0 : Except DebugProbeError Nat),
                     ([] : List RomEvent))) with
        | (Except.error er, evs) =>
          (Except.error (ProbeRsError.Probe er),
           [RomEvent.readIdr e.port, RomEvent.readBase e.port] ++ evs)
        | (Except.ok hi, evs) =>
          let baseaddr := compute_baseaddr breg.Format breg.BASEADDR hi
          match e.parse with
          | Except.error pe =>
            (Except.error (ProbeRsError.ArchitectureSpecific pe),
             [RomEvent.readIdr e.port, RomEvent.readBase e.port] ++ evs
               ++ [RomEvent.parseAt e.port baseaddr])
          | Except.ok (CSComponentModel.class1RomTable (some j) part) =>
            (Except.ok (some ⟨j, part⟩),
             [RomEvent.readIdr e.port, RomEvent.readBase e.port] ++ evs
               ++ [RomEvent.parseAt e.port baseaddr])
          | Except.ok _ =>
            (Except.ok none,
             [RomEvent.readIdr e.port, RomEvent.readBase e.port] ++ evs
               ++ [RomEvent.parseAt e.port baseaddr])
    else (Except.ok none, [RomEvent.readIdr e.port])

/-- `ArmChipInfo::read_from_rom_table` (lines 493-559) over the Access
Ports delivered by `valid_access_ports` (that enumeration lives in the
missing `ap` module; per the spec it yields the contiguous prefix of
implemented ports, the input list here): run the loop body on each port in
order; a `continue` outcome moves to the next port, an early return or an
error stops the scan, and a completed scan yields `Ok(None)`. -/
def read_from_rom_table :
    List ApEntry → Except ProbeRsError (Option ArmChipInfo) × List RomEvent
  | [] => (Except.ok none, [])
  | e :: rest =>
    match inspectEntry e with
    | (Except.ok none, evs) =>
      let t := read_from_rom_table rest
      (t.1, evs ++ t.2)
    | (Except.ok (some info), evs) => (Except.ok (some info), evs)
    | (Except.error er, evs) => (Except.error er, evs)



/-- A memory-access-capable port whose base reads back as a legacy-format
zero and whose component decode yields a non-matching component. -/
def memApNoMatch (pn : Nat) : ApEntry :=
  { port := pn, idr := Except.ok true,
    base := Except.ok ⟨BaseaddrFormat.Legacy, 0⟩,
    base2 := Except.ok 0,
    parse := Except.ok CSComponentModel.other }

/-- Whether a decoded component has the shape the scan's match arm accepts
(line 529): a class-1 ROM table whose JEP106 manufacturer code is present;
every other shape falls to the `_ => continue` arm. -/
def componentMatches : CSComponentModel → Bool
  | CSComponentModel.class1RomTable (some _) _ => true
  | CSComponentModel.class1RomTable none _ => false
  | CSComponentModel.other => false

/-- The read events of the BASE2 phase of one port's inspection: a BASE2
read when the base register's format is ADIv5, nothing otherwise. -/
def base2Events (e : ApEntry) (breg : BaseVal) : List RomEvent :=
  if breg.Format = BaseaddrFormat.ADIv5 then [RomEvent.readBase2 e.port] else []

/-- The high-half value the inspection feeds into the base-address
computation: the successfully read BASE2 value when the format is ADIv5,
zero otherwise. -/
def base2Value (e : ApEntry) (breg : BaseVal) : Nat :=
  if breg.Format = BaseaddrFormat.ADIv5 then
    (match e.base2 with
     | Except.ok v => v
     | Except.error _ => 0)
  else 0

/-- A port whose inspection completes without wire or decode failure and
yields no chip: either its class is not MEMAP, or (with BASE read
successfully, and BASE2 too when the format is ADIv5) its decode yields a
component that is not a class-1 ROM table with a present manufacturer. -/
def entryNoChip (e : ApEntry) : Bool :=
  match e.idr with
  | Except.error _ => false
  | Except.ok isMemAp =>
    if isMemAp then
      match e.base with
      | Except.error _ => false
      | Except.ok breg =>
        (if breg.Format = BaseaddrFormat.ADIv5 then
           (match e.base2 with
            | Except.ok _ => true
            | Except.error _ => false)
         else true)
        && (match e.parse with
            | Except.ok (CSComponentModel.class1RomTable (some _) _) => false
            | Except.ok _ => true
            | Except.error _ => false)
    else true

/-- Rust's `{:2x}` formatting as used by the `Display` impl: lowercase
hexadecimal digits, right-aligned in a field of width 2 and padded with
spaces (a width without the `0` flag pads with the fill character, which
defaults to a space). -/
def fmtHex2 (n : Nat) : String :=
  ⟨List.replicate (2 - (Nat.toDigits 16 n).length) ' ' ++ Nat.toDigits 16 n⟩

/-- Rust's `{:04x}` formatting as used by the `Display` impl: lowercase
hexadecimal digits, zero-padded to width 4. -/
def fmtHex04 (n : Nat) : String :=
  ⟨List.replicate (4 - (Nat.toDigits 16 n).length) '0' ++ Nat.toDigits 16 n⟩

/-- `impl Display for ArmChipInfo` (lines 562-573), parameterized by the
manufacturer-name lookup (`JEP106Code::get` of the external `jep106`
crate): a registered manufacturer renders as its vendor name, an
unregistered one as the unknown-manufacturer form with `cc={:2x}` and
`id={:2x}`; either is followed by the part as `0x{:04x}`. -/
def armChipInfoDisplay (get : JEP106Code → Option String) (info : ArmChipInfo) :
    String :=
  let manu := match get info.manufacturer with
    | some name => name
    | none =>
      "<unknown manufacturer (cc=" ++ fmtHex2 info.manufacturer.cc ++
        ", id=" ++ fmtHex2 info.manufacturer.id ++ ")>"
  manu ++ " 0x" ++ fmtHex04 info.part

/-- The underlying probe connection, kept abstract. -/
structure ProbeConn where
  tag : Nat
deriving DecidableEq, Repr

/-- Modelled from the spec: `ArmCommunicationInterface` wraps the inner
state in `Rc<RefCell<...>>` (Rust standard library, not part of this
source tree); per the spec's design note the shared handle is an
ownership-counted wrapper, `owners` being the number of live references to
the one shared session. -/
structure SharedHandle where
  owners : Nat
  probe : ProbeConn
  inner : Inner
deriving DecidableEq, Repr

/-- `ArmCommunicationInterface::close` (lines 133-140): `Rc::try_unwrap`
succeeds exactly when the consumed handle is the last live reference, and
then the probe is extracted; otherwise the caller gets the handle back
unchanged. -/
def close (h : SharedHandle) : Sum ProbeConn SharedHandle :=
  if h.owners = 1 then Sum.inl h.probe else Sum.inr h

/-- Dropping one other live reference to the session (a Rust `drop` of one
of the `Rc` clones). -/
def dropRef (h : SharedHandle) : SharedHandle :=
  { h with owners := h.owners - 1 }

theorem selCount_append (t u : List WireOp) :
    selCount (t ++ u) = selCount t + selCount u := by
  simp [selCount, List.filter_append]

theorem select_ok_spec (s : Inner) (p b : Nat) :
    (select_ap_and_ap_bank s p b true (Except.ok ())).state = ⟨p, b⟩ ∧
    (select_ap_and_ap_bank s p b true (Except.ok ())).trace =
      (if s.current_apsel = p ∧ s.current_apbanksel = b then []
       else [WireOp.selectWrite p b]) := by
  obtain ⟨a, k⟩ := s
  by_cases h1 : a = p <;> by_cases h2 : k = b <;>
    simp [select_ap_and_ap_bank, h1, h2]

theorem apAccessOk_spec (s : Inner) (r : ApRequest) :
    (apAccessOk s r).1 = ⟨r.target.1, r.target.2⟩ ∧
    (apAccessOk s r).2.filter WireOp.isSelect =
      (if s.current_apsel = r.target.1 ∧ s.current_apbanksel = r.target.2 then []
       else [WireOp.selectWrite r.target.1 r.target.2]) := by
  have h := select_ok_spec s r.target.1 r.target.2
  constructor
  · simp [apAccessOk, h.1]
  · simp only [apAccessOk, List.filter_append, h.2]
    by_cases hc : s.current_apsel = r.target.1 ∧ s.current_apbanksel = r.target.2 <;>
      simp [hc, WireOp.isSelect]

theorem runAccessesOk_matched (p b : Nat) : ∀ (reqs : List ApRequest),
    (∀ r ∈ reqs, r.target = (p, b)) →
    (runAccessesOk ⟨p, b⟩ reqs).1 = ⟨p, b⟩ ∧
    selCount (runAccessesOk ⟨p, b⟩ reqs).2 = 0
  | [], _ => by simp [runAccessesOk, selCount]
  | r :: rest, h => by
    have htgt : r.target = (p, b) := h r (List.mem_cons_self r rest)
    have hs := apAccessOk_spec ⟨p, b⟩ r
    have hfst : (apAccessOk ⟨p, b⟩ r).1 = ⟨p, b⟩ := by rw [hs.1, htgt]
    have hsel : (apAccessOk ⟨p, b⟩ r).2.filter WireOp.isSelect = [] := by
      rw [hs.2, htgt]; simp
    have ih := runAccessesOk_matched p b rest (fun x hx => h x (List.mem_cons_of_mem r hx))
    constructor
    · simp [runAccessesOk, hfst, ih.1]
    · simp only [runAccessesOk, hfst, selCount_append]
      rw [ih.2]
      simp [selCount, hsel]

/-- C1: every AP register access (single or block, read or write) compares
the requested (AP number, AP bank) pair against the cached selection state;
if either component differs a single SELECT write encoding both components
is issued and the cache becomes the requested pair; if both match, no
SELECT write is issued. The concrete sequence AP 3 bank 1, AP 3 bank 2,
AP 3 bank 1 from a fresh handle issues exactly three SELECT writes. -/
theorem C1_selection_rule :
    (∀ (s : Inner) (r : ApRequest),
      (apAccessOk s r).1 = ⟨r.target.1, r.target.2⟩ ∧
      (apAccessOk s r).2.filter WireOp.isSelect =
        (if s.current_apsel = r.target.1 ∧ s.current_apbanksel = r.target.2 then []
         else [WireOp.selectWrite r.target.1 r.target.2])) ∧
    selCount (runAccessesOk ⟨0, 0⟩
      [ApRequest.readReg 3 1 0, ApRequest.readReg 3 2 0,
       ApRequest.readReg 3 1 0]).2 = 3 :=
  ⟨apAccessOk_spec, by decide⟩

/-- C2 as stated is false: on a freshly constructed handle the cache starts
at AP 0, bank 0, so a single access targeting (0, 0) issues zero SELECT
writes, not one. -/
theorem C2_counterexample :
    ¬ selCount (runAccessesOk ⟨0, 0⟩ [ApRequest.readReg 0 0 4]).2 = 1 := by
  decide

/-- C2 amended: on a freshly constructed handle (cache initialized to
AP 0, bank 0 by `InnerArmCommunicationInterface::new`), a nonempty sequence
of AP accesses all targeting one (AP, bank) pair issues exactly one SELECT
write in total when that pair differs from (0, 0), and zero SELECT writes
when the pair is (0, 0). -/
theorem C2_selection_minimality (p b : Nat) (reqs : List ApRequest)
    (hne : reqs ≠ []) (htgt : ∀ r ∈ reqs, r.target = (p, b)) :
    selCount (runAccessesOk ⟨0, 0⟩ reqs).2 =
      (if p = 0 ∧ b = 0 then 0 else 1) := by
  cases reqs with
  | nil => exact absurd rfl hne
  | cons r rest =>
    have hr : r.target = (p, b) := htgt r (List.mem_cons_self r rest)
    have hs := apAccessOk_spec ⟨0, 0⟩ r
    have hfst : (apAccessOk ⟨0, 0⟩ r).1 = ⟨p, b⟩ := by rw [hs.1, hr]
    have ih := runAccessesOk_matched p b rest
      (fun x hx => htgt x (List.mem_cons_of_mem r hx))
    have hsel1 : selCount (apAccessOk ⟨0, 0⟩ r).2 =
        (if p = 0 ∧ b = 0 then 0 else 1) := by
      simp only [selCount, hs.2, hr]
      by_cases hc : p = 0 ∧ b = 0
      · simp [hc.1, hc.2]
      · have hc' : ¬ ((0 : Nat) = p ∧ (0 : Nat) = b) :=
          fun h0 => hc ⟨h0.1.symm, h0.2.symm⟩
        simp [hc, hc']
    simp [runAccessesOk, selCount_append, hfst, hsel1, ih.2]

/-- C4 as stated is false: with the transport interface unavailable, an
access to AP 1 bank 0 from the post-construction state fails, delivers
nothing to the hardware (whose SELECT register last received AP 0, bank 0
during power-up), yet the cache has been mutated to the requested pair
(1, 0), differing from what hardware last received. -/
theorem C4_counterexample :
    (select_ap_and_ap_bank ⟨0, 0⟩ 1 0 false (Except.ok ())).result
      = Except.error (DebugProbeError.InterfaceNotAvailable "ARM") ∧
    (select_ap_and_ap_bank ⟨0, 0⟩ 1 0 false (Except.ok ())).trace = [] ∧
    (select_ap_and_ap_bank ⟨0, 0⟩ 1 0 false (Except.ok ())).state ≠ ⟨0, 0⟩ :=
  ⟨rfl, rfl, by decide⟩

/-- C4 amended: the cache is updated to the requested pair before the
SELECT write is attempted. After a successful operation the cache equals
the SELECT pair most recently delivered to hardware (the write issued, when
one was needed, encodes exactly the new cache pair); but a failing SELECT
write or an unavailable transport interface leaves the cache at the
requested pair while hardware received nothing. -/
theorem C4_cache_update (s : Inner) (p b : Nat) (avail : Bool)
    (res : Except DebugProbeError Unit) :
    (select_ap_and_ap_bank s p b avail res).state = ⟨p, b⟩ ∧
    ((select_ap_and_ap_bank s p b avail res).result = Except.ok () →
      (select_ap_and_ap_bank s p b avail res).trace.filter WireOp.isSelect =
        (if s.current_apsel = p ∧ s.current_apbanksel = b then []
         else [WireOp.selectWrite p b])) ∧
    (∀ e, (select_ap_and_ap_bank s p b avail res).result = Except.error e →
      (select_ap_and_ap_bank s p b avail res).trace = []) := by
  obtain ⟨a, k⟩ := s
  by_cases h1 : a = p <;> by_cases h2 : k = b <;>
    cases avail <;> rcases res with _ | e <;>
      simp [select_ap_and_ap_bank, h1, h2, WireOp.isSelect]

theorem C4_cache_update_witness :
    (select_ap_and_ap_bank ⟨0, 0⟩ 1 0 true (Except.ok ())).state = ⟨1, 0⟩ ∧
    (select_ap_and_ap_bank ⟨0, 0⟩ 1 0 true
        (Except.ok ())).trace.filter WireOp.isSelect = [WireOp.selectWrite 1 0] ∧
    (select_ap_and_ap_bank ⟨0, 0⟩ 1 0 false (Except.ok ())).trace = [] := by
  refine ⟨(C4_cache_update ⟨0, 0⟩ 1 0 true (Except.ok ())).1, ?_, ?_⟩
  · have h := (C4_cache_update ⟨0, 0⟩ 1 0 true (Except.ok ())).2.1 rfl
    simpa using h
  · exact (C4_cache_update ⟨0, 0⟩ 1 0 false (Except.ok ())).2.2
      (DebugProbeError.InterfaceNotAvailable "ARM") rfl

theorem C2_selection_minimality_witness :
    selCount (runAccessesOk ⟨0, 0⟩
      [ApRequest.readReg 3 1 0, ApRequest.writeBlock 3 1 4 8]).2 = 1 := by
  have h := C2_selection_minimality 3 1
    [ApRequest.readReg 3 1 0, ApRequest.writeBlock 3 1 4 8]
    (by decide) (by decide)
  simpa using h

/-- C3: handle construction runs the power-up handshake exactly once, in
strict order: a DPIDR read whose value does not gate success, one abort
write clearing all four sticky flags, a selection write choosing DP bank 0,
a control write requesting system and debug power-up, and a control
read-back; construction succeeds iff both acknowledge bits are set in the
read-back, and otherwise fails with the power-up-failure error having
issued no further register operation. -/
theorem C3_power_up_handshake (dpidr : Nat) (ack : CtrlVal) :
    (innerNew true dpidr ack).2 =
      [DpOp.readDpIdr, DpOp.writeAbort true true true true, DpOp.writeSelectDp 0,
       DpOp.writeCtrl true true, DpOp.readCtrl] ∧
    ((innerNew true dpidr ack).1 = Except.ok ⟨0, 0⟩ ↔
      ack.csyspwrupack = true ∧ ack.cdbgpwrupack = true) ∧
    (¬ (ack.csyspwrupack = true ∧ ack.cdbgpwrupack = true) →
      (innerNew true dpidr ack).1 =
        Except.error (DebugProbeError.ArchitectureSpecific DapError.TargetPowerUpFailed)) ∧
    (∀ dpidr2 : Nat, (innerNew true dpidr ack).1 = (innerNew true dpidr2 ack).1) := by
  obtain ⟨s, d⟩ := ack
  cases s <;> cases d <;> simp [innerNew, enter_debug_mode]

theorem C3_power_up_handshake_witness :
    (innerNew true 0x2BA01477 ⟨true, true⟩).1 = Except.ok ⟨0, 0⟩ ∧
    (innerNew true 0x2BA01477 ⟨false, true⟩).1 =
      Except.error (DebugProbeError.ArchitectureSpecific DapError.TargetPowerUpFailed) := by
  constructor
  · exact (C3_power_up_handshake 0x2BA01477 ⟨true, true⟩).2.1.mpr ⟨rfl, rfl⟩
  · exact (C3_power_up_handshake 0x2BA01477 ⟨false, true⟩).2.2.1 (by simp)

/-- C5: the port-type wire conversion is mutually inverse: decoding the
encoding of `AccessPort(n)` yields `AccessPort(n)` for every n in 0..65534,
encoding `DebugPort` yields 65535, and decoding 65535 yields `DebugPort`. -/
theorem C5_port_roundtrip :
    (∀ n : Nat, n ≤ 65534 →
      portTypeFromU16 (u16FromPortType (PortType.AccessPort n)) = PortType.AccessPort n) ∧
    u16FromPortType PortType.DebugPort = 65535 ∧
    portTypeFromU16 65535 = PortType.DebugPort := by
  refine ⟨fun n hn => ?_, rfl, by decide⟩
  have hne : n ≠ 0xFFFF := by omega
  simp [portTypeFromU16, u16FromPortType, hne]

theorem C5_port_roundtrip_witness :
    portTypeFromU16 (u16FromPortType (PortType.AccessPort 42)) = PortType.AccessPort 42 :=
  C5_port_roundtrip.1 42 (by decide)

/-- C7: with the extended (ADIv5) format the component-tree base address
is (high32 <<< 32) ||| (low20 <<< 12); with the legacy format it is
low20 <<< 12; in particular a legacy 20-bit base field of 0xE00FF resolves
to exactly 0xE00FF000. -/
theorem C7_baseaddr (low high : Nat) (hlow : low < 2 ^ 20) (hhigh : high < 2 ^ 32) :
    compute_baseaddr BaseaddrFormat.ADIv5 low high = (high <<< 32) ||| (low <<< 12) ∧
    compute_baseaddr BaseaddrFormat.Legacy low high = low <<< 12 ∧
    compute_baseaddr BaseaddrFormat.Legacy 0xE00FF high = 0xE00FF000 := by
  have h1 : (low * 2 ^ 12) % 2 ^ 32 = low * 2 ^ 12 := Nat.mod_eq_of_lt (by omega)
  have h2 : high % 2 ^ 32 = high := Nat.mod_eq_of_lt hhigh
  refine ⟨?_, ?_, ?_⟩
  · simp only [compute_baseaddr, if_pos rfl, h1, h2]
    rw [Nat.shiftLeft_eq, Nat.shiftLeft_eq]
    rfl
  · simp only [compute_baseaddr, h1]
    rw [Nat.shiftLeft_eq]
    exact Nat.zero_or _
  · simp only [compute_baseaddr, h1]
    rw [show ((0xE00FF * 2 ^ 12) % 2 ^ 32 : Nat) = 0xE00FF000 by norm_num]
    exact Nat.zero_or _

theorem C7_baseaddr_witness :
    compute_baseaddr BaseaddrFormat.ADIv5 0xE00FF 0x12345678
        = (0x12345678 <<< 32) ||| (0xE00FF <<< 12) ∧
    compute_baseaddr BaseaddrFormat.Legacy 0xE00FF 0 = 0xE00FF000 := by
  refine ⟨(C7_baseaddr 0xE00FF 0x12345678 (by decide) (by decide)).1, ?_⟩
  exact (C7_baseaddr 0xE00FF 0 (by decide) (by decide)).2.2

/-- C6 as stated is false: with two memory-access-capable ports whose
decodes both yield non-matching components, the scan reads the
base-address register of the second memory-access-capable port as well —
the trace contains `readBase 1` — so a second such port is inspected. -/
theorem C6_counterexample :
    (read_from_rom_table [memApNoMatch 0, memApNoMatch 1]).1 = Except.ok none ∧
    RomEvent.readBase 1 ∈ (read_from_rom_table [memApNoMatch 0, memApNoMatch 1]).2 :=
  ⟨rfl, by decide⟩

/-- C6 amended: the scan returns the {manufacturer, part} of the first
port whose decode yields a class-1 ROM table with a present manufacturer,
immediately and without touching any later port; but a
memory-access-capable port that decodes to a non-matching component (any
shape the match arm rejects, including a class-1 ROM table whose
manufacturer code is absent) does not stop the scan, which continues into
the remaining ports (including further memory-access-capable ones).
Stated for both base-register formats, with BASE2 read when ADIv5. -/
theorem C6_first_match_wins (e : ApEntry) (rest : List ApEntry) (breg : BaseVal)
    (hmem : e.idr = Except.ok true) (hbase : e.base = Except.ok breg)
    (hb2 : breg.Format = BaseaddrFormat.ADIv5 → ∃ v, e.base2 = Except.ok v) :
    (∀ j part, e.parse = Except.ok (CSComponentModel.class1RomTable (some j) part) →
      read_from_rom_table (e :: rest) =
        (Except.ok (some ⟨j, part⟩),
         [RomEvent.readIdr e.port, RomEvent.readBase e.port] ++ base2Events e breg ++
           [RomEvent.parseAt e.port
             (compute_baseaddr breg.Format breg.BASEADDR (base2Value e breg))])) ∧
    (∀ comp, e.parse = Except.ok comp → componentMatches comp = false →
      read_from_rom_table (e :: rest) =
        ((read_from_rom_table rest).1,
         [RomEvent.readIdr e.port, RomEvent.readBase e.port] ++ base2Events e breg ++
           [RomEvent.parseAt e.port
             (compute_baseaddr breg.Format breg.BASEADDR (base2Value e breg))]
           ++ (read_from_rom_table rest).2)) := by
  constructor
  · intro j part hparse
    rcases hf : breg.Format with _ | _
    · simp [read_from_rom_table, inspectEntry, base2Events, base2Value,
        hmem, hbase, hf, hparse]
    · obtain ⟨v, hv⟩ := hb2 hf
      simp [read_from_rom_table, inspectEntry, base2Events, base2Value,
        hmem, hbase, hf, hv, hparse]
  · intro comp hparse hmatch
    rcases comp with ⟨_ | j, part⟩ | _
    · rcases hf : breg.Format with _ | _
      · simp [read_from_rom_table, inspectEntry, base2Events, base2Value,
          hmem, hbase, hf, hparse]
      · obtain ⟨v, hv⟩ := hb2 hf
        simp [read_from_rom_table, inspectEntry, base2Events, base2Value,
          hmem, hbase, hf, hv, hparse]
    · simp [componentMatches] at hmatch
    · rcases hf : breg.Format with _ | _
      · simp [read_from_rom_table, inspectEntry, base2Events, base2Value,
          hmem, hbase, hf, hparse]
      · obtain ⟨v, hv⟩ := hb2 hf
        simp [read_from_rom_table, inspectEntry, base2Events, base2Value,
          hmem, hbase, hf, hv, hparse]

theorem inspectEntry_noChip (e : ApEntry) (h : entryNoChip e = true) :
    (inspectEntry e).1 = Except.ok none := by
  obtain ⟨pn, idr, base, base2, parse⟩ := e
  rcases idr with er | isMem
  · simp [entryNoChip] at h
  · cases isMem
    · simp [inspectEntry]
    · rcases base with er | breg
      · simp [entryNoChip] at h
      · obtain ⟨fmt, lowf⟩ := breg
        rcases parse with pe | comp
        · cases fmt <;> rcases base2 with er | b2 <;> simp [entryNoChip] at h
        · rcases comp with ⟨_ | j, part⟩ | _ <;>
            cases fmt <;> rcases base2 with er | b2 <;>
            simp_all [entryNoChip, inspectEntry]

theorem read_from_rom_table_skip (pre aps : List ApEntry)
    (h : ∀ x ∈ pre, entryNoChip x = true) :
    (read_from_rom_table (pre ++ aps)).1 = (read_from_rom_table aps).1 := by
  induction pre with
  | nil => rfl
  | cons x l ih =>
    have hx := inspectEntry_noChip x (h x (List.mem_cons_self x l))
    have ih' := ih (fun y hy => h y (List.mem_cons_of_mem x hy))
    rcases hI : inspectEntry x with ⟨r, evs⟩
    rw [hI] at hx
    simp only at hx
    subst hx
    simp [read_from_rom_table, hI, ih']

theorem read_cons_error (e : ApEntry) (rest : List ApEntry) (er : ProbeRsError)
    (h : (inspectEntry e).1 = Except.error er) :
    (read_from_rom_table (e :: rest)).1 = Except.error er := by
  rcases hI : inspectEntry e with ⟨r, evs⟩
  rw [hI] at h
  simp only at h
  subst h
  simp [read_from_rom_table, hI]

/-- C8: a scan whose every port completes without failure and yields no
chip (no memory-access-capable port, or none decoding to an identifiable
component) returns the successful empty outcome `Ok(None)`; whereas the
first wire-level failure reading IDR, BASE or BASE2, and the first decode
failure, each abort the scan with that failure surfaced as an error
(wrapped in `Probe`, respectively the architecture-specific wrapper),
never as the empty outcome. -/
theorem C8_no_chip_vs_error :
    (∀ aps : List ApEntry, (∀ e ∈ aps, entryNoChip e = true) →
      (read_from_rom_table aps).1 = Except.ok none) ∧
    (∀ (pre rest : List ApEntry) (e : ApEntry) (er : DebugProbeError),
      (∀ x ∈ pre, entryNoChip x = true) → e.idr = Except.error er →
      (read_from_rom_table (pre ++ e :: rest)).1 =
        Except.error (ProbeRsError.Probe er)) ∧
    (∀ (pre rest : List ApEntry) (e : ApEntry) (er : DebugProbeError),
      (∀ x ∈ pre, entryNoChip x = true) → e.idr = Except.ok true →
      e.base = Except.error er →
      (read_from_rom_table (pre ++ e :: rest)).1 =
        Except.error (ProbeRsError.Probe er)) ∧
    (∀ (pre rest : List ApEntry) (e : ApEntry) (breg : BaseVal)
        (er : DebugProbeError),
      (∀ x ∈ pre, entryNoChip x = true) → e.idr = Except.ok true →
      e.base = Except.ok breg → breg.Format = BaseaddrFormat.ADIv5 →
      e.base2 = Except.error er →
      (read_from_rom_table (pre ++ e :: rest)).1 =
        Except.error (ProbeRsError.Probe er)) ∧
    (∀ (pre rest : List ApEntry) (e : ApEntry) (breg : BaseVal)
        (pe : RomTableError),
      (∀ x ∈ pre, entryNoChip x = true) → e.idr = Except.ok true →
      e.base = Except.ok breg →
      (breg.Format = BaseaddrFormat.ADIv5 → ∃ v, e.base2 = Except.ok v) →
      e.parse = Except.error pe →
      (read_from_rom_table (pre ++ e :: rest)).1 =
        Except.error (ProbeRsError.ArchitectureSpecific pe)) := by
  refine ⟨?_, ?_, ?_, ?_, ?_⟩
  · intro aps h
    have hs := read_from_rom_table_skip aps [] h
    simpa using hs
  · intro pre rest e er hpre hidr
    rw [read_from_rom_table_skip pre (e :: rest) hpre]
    exact read_cons_error e rest _ (by simp [inspectEntry, hidr])
  · intro pre rest e er hpre hidr hbase
    rw [read_from_rom_table_skip pre (e :: rest) hpre]
    exact read_cons_error e rest _ (by simp [inspectEntry, hidr, hbase])
  · intro pre rest e breg er hpre hidr hbase hfmt hb2
    rw [read_from_rom_table_skip pre (e :: rest) hpre]
    exact read_cons_error e rest _ (by simp [inspectEntry, hidr, hbase, hfmt, hb2])
  · intro pre rest e breg pe hpre hidr hbase hb2 hparse
    rw [read_from_rom_table_skip pre (e :: rest) hpre]
    refine read_cons_error e rest _ ?_
    rcases hf : breg.Format with _ | _
    · simp [inspectEntry, hidr, hbase, hf, hparse]
    · obtain ⟨v, hv⟩ := hb2 hf
      simp [inspectEntry, hidr, hbase, hf, hv, hparse]

theorem C8_no_chip_vs_error_witness :
    (read_from_rom_table [⟨0, Except.ok false, Except.ok ⟨BaseaddrFormat.Legacy, 0⟩,
        Except.ok 0, Except.ok CSComponentModel.other⟩]).1 = Except.ok none ∧
    (read_from_rom_table [⟨0, Except.error (DebugProbeError.ArchitectureSpecific
        DapError.FaultResponse), Except.ok ⟨BaseaddrFormat.Legacy, 0⟩,
        Except.ok 0, Except.ok CSComponentModel.other⟩]).1 =
      Except.error (ProbeRsError.Probe (DebugProbeError.ArchitectureSpecific
        DapError.FaultResponse)) ∧
    (read_from_rom_table [⟨0, Except.ok true, Except.error
        (DebugProbeError.ArchitectureSpecific DapError.WaitResponse),
        Except.ok 0, Except.ok CSComponentModel.other⟩]).1 =
      Except.error (ProbeRsError.Probe (DebugProbeError.ArchitectureSpecific
        DapError.WaitResponse)) ∧
    (read_from_rom_table [⟨0, Except.ok true, Except.ok ⟨BaseaddrFormat.ADIv5, 0⟩,
        Except.error (DebugProbeError.ArchitectureSpecific DapError.NoAcknowledge),
        Except.ok CSComponentModel.other⟩]).1 =
      Except.error (ProbeRsError.Probe (DebugProbeError.ArchitectureSpecific
        DapError.NoAcknowledge)) ∧
    (read_from_rom_table [⟨0, Except.ok true, Except.ok ⟨BaseaddrFormat.Legacy, 0⟩,
        Except.ok 0, Except.error ⟨7⟩⟩]).1 =
      Except.error (ProbeRsError.ArchitectureSpecific ⟨7⟩) ∧
    (read_from_rom_table [⟨0, Except.ok true, Except.ok ⟨BaseaddrFormat.ADIv5, 0⟩,
        Except.ok 5, Except.error ⟨9⟩⟩]).1 =
      Except.error (ProbeRsError.ArchitectureSpecific ⟨9⟩) := by
  refine ⟨?_, ?_, ?_, ?_, ?_, ?_⟩
  · exact C8_no_chip_vs_error.1 _ (by decide)
  · exact C8_no_chip_vs_error.2.1 [] [] _ _ (by decide) rfl
  · exact C8_no_chip_vs_error.2.2.1 [] [] _ _ (by decide) rfl rfl
  · exact C8_no_chip_vs_error.2.2.2.1 [] [] _ ⟨BaseaddrFormat.ADIv5, 0⟩ _
      (by decide) rfl rfl rfl rfl
  · exact C8_no_chip_vs_error.2.2.2.2 [] [] _ ⟨BaseaddrFormat.Legacy, 0⟩ _
      (by decide) rfl rfl (by simp) rfl
  · exact C8_no_chip_vs_error.2.2.2.2 [] [] _ ⟨BaseaddrFormat.ADIv5, 0⟩ _
      (by decide) rfl rfl (fun _ => ⟨5, rfl⟩) rfl

theorem C6_first_match_wins_witness :
    read_from_rom_table
        [⟨0, Except.ok true, Except.ok ⟨BaseaddrFormat.Legacy, 0xE00FF⟩, Except.ok 0,
          Except.ok (CSComponentModel.class1RomTable (some ⟨4, 0x3B⟩) 0x1234)⟩,
         memApNoMatch 1] =
      (Except.ok (some ⟨⟨4, 0x3B⟩, 0x1234⟩),
       [RomEvent.readIdr 0, RomEvent.readBase 0, RomEvent.parseAt 0 0xE00FF000]) ∧
    read_from_rom_table
        [⟨0, Except.ok true, Except.ok ⟨BaseaddrFormat.ADIv5, 0⟩, Except.ok 1,
          Except.ok (CSComponentModel.class1RomTable none 0)⟩] =
      (Except.ok none,
       [RomEvent.readIdr 0, RomEvent.readBase 0, RomEvent.readBase2 0,
        RomEvent.parseAt 0 0x100000000]) := by
  constructor
  · have h := (C6_first_match_wins
      ⟨0, Except.ok true, Except.ok ⟨BaseaddrFormat.Legacy, 0xE00FF⟩, Except.ok 0,
        Except.ok (CSComponentModel.class1RomTable (some ⟨4, 0x3B⟩) 0x1234)⟩
      [memApNoMatch 1] ⟨BaseaddrFormat.Legacy, 0xE00FF⟩ rfl rfl (by simp)).1
      ⟨4, 0x3B⟩ 0x1234 rfl
    simpa [base2Events, base2Value] using h
  · have h := (C6_first_match_wins
      ⟨0, Except.ok true, Except.ok ⟨BaseaddrFormat.ADIv5, 0⟩, Except.ok 1,
        Except.ok (CSComponentModel.class1RomTable none 0)⟩
      [] ⟨BaseaddrFormat.ADIv5, 0⟩ rfl rfl (fun _ => ⟨1, rfl⟩)).2
      (CSComponentModel.class1RomTable none 0) rfl rfl
    simpa [base2Events, base2Value, read_from_rom_table] using h

/-- C9 as stated is false: the source formats cc and id with `{:2x}`,
which is space-padded, not zero-padded, so continuation code 0x04 renders
as "cc= 4" and not "cc=04". -/
theorem C9_counterexample :
    armChipInfoDisplay (fun _ => none) ⟨⟨0x04, 0x3B⟩, 0x1234⟩ ≠
      "<unknown manufacturer (cc=04, id=3b)> 0x1234" := by
  decide

/-- C9 amended: an unregistered manufacturer renders as
"<unknown manufacturer (cc=XX, id=XX)> 0xPPPP" with cc and id in lowercase
hexadecimal right-aligned in width 2 and space-padded — continuation code
0x04 renders as "cc= 4" and identity code 0x3B as "id=3b" — and the part
as 0x followed by four zero-padded lowercase hexadecimal digits (part
0x1234 renders as "0x1234"); a registered manufacturer renders as its
vendor name followed by the same part form. -/
theorem C9_display (get : JEP106Code → Option String) (name : String)
    (info : ArmChipInfo) :
    (get info.manufacturer = none →
      armChipInfoDisplay get info =
        ("<unknown manufacturer (cc=" ++ fmtHex2 info.manufacturer.cc ++
          ", id=" ++ fmtHex2 info.manufacturer.id ++ ")>") ++ " 0x" ++
          fmtHex04 info.part) ∧
    (get info.manufacturer = some name →
      armChipInfoDisplay get info = name ++ " 0x" ++ fmtHex04 info.part) ∧
    armChipInfoDisplay (fun _ => none) ⟨⟨0x04, 0x3B⟩, 0x1234⟩ =
      "<unknown manufacturer (cc= 4, id=3b)> 0x1234" := by
  refine ⟨fun h => ?_, fun h => ?_, by decide⟩
  · simp [armChipInfoDisplay, h]
  · simp [armChipInfoDisplay, h]

theorem C9_display_witness :
    armChipInfoDisplay (fun _ => none) ⟨⟨0x04, 0x3B⟩, 0x1234⟩ =
      ("<unknown manufacturer (cc=" ++ fmtHex2 0x04 ++ ", id=" ++
        fmtHex2 0x3B ++ ")>") ++ " 0x" ++ fmtHex04 0x1234 ∧
    armChipInfoDisplay (fun _ => some "NXP") ⟨⟨0x04, 0x3B⟩, 0x1234⟩ =
      "NXP" ++ " 0x" ++ fmtHex04 0x1234 := by
  constructor
  · exact (C9_display (fun _ => none) "" ⟨⟨0x04, 0x3B⟩, 0x1234⟩).1 rfl
  · exact (C9_display (fun _ => some "NXP") "NXP" ⟨⟨0x04, 0x3B⟩, 0x1234⟩).2.1 rfl

/-- C10: reclaim yields the original probe connection exactly when the
handle is the last live reference, and otherwise returns the handle
unchanged (cache and transport intact) as a retryable non-failure; with
two live references reclaim returns the handle unchanged, and after the
other reference is dropped it succeeds, yielding the original probe. -/
theorem C10_reclaim (h : SharedHandle) :
    (1 ≤ h.owners → (close h = Sum.inl h.probe ↔ h.owners = 1)) ∧
    (h.owners ≠ 1 → close h = Sum.inr h) ∧
    (h.owners = 2 → close h = Sum.inr h ∧ close (dropRef h) = Sum.inl h.probe) := by
  refine ⟨fun _ => ?_, fun hne => ?_, fun h2 => ?_⟩
  · constructor
    · intro hc
      by_contra hne
      simp [close, hne] at hc
    · intro h1
      simp [close, h1]
  · simp [close, hne]
  · exact ⟨by simp [close, h2], by simp [close, dropRef, h2]⟩

theorem C10_reclaim_witness :
    close ⟨2, ⟨5⟩, ⟨0, 0⟩⟩ = Sum.inr ⟨2, ⟨5⟩, ⟨0, 0⟩⟩ ∧
    close (dropRef ⟨2, ⟨5⟩, ⟨0, 0⟩⟩) = Sum.inl ⟨5⟩ :=
  (C10_reclaim ⟨2, ⟨5⟩, ⟨0, 0⟩⟩).2.2 rfl

end ArmComm
